import Mathlib

/-!
Shallow embedding of the `@smart-pay-chain/otp` TypeScript SDK
(`src/errors.ts`, `src/http-client.ts`, `src/otp-client.ts`, `src/types.ts`)
together with theorems settling the specification claims about the
error taxonomy, the transport retry loop, header construction,
input validation, the configuration cache and idempotency-key generation.

Modelling conventions:
* JavaScript objects whose field order matters (object literals used for
  headers) are association lists built by an insert-or-replace fold,
  mirroring literal evaluation order.
* JavaScript falsiness of optional arguments (`x || d`) is modelled
  explicitly: `0` and `""` count as absent.
* `Date.now()` and `Math.random()` are modelled as explicit parameters:
  each embedded operation receives the values the runtime would have
  sampled, exactly as many times as the source samples them.
* Error `code` fields are strings, as they are at runtime on the wire
  (the TypeScript enum erases to its string values).
-/

namespace SpcOtp

/-! ## types.ts: wire shapes -/

/-- Runtime values: `ErrorCode` enum members erase to these string values at runtime. -/
def ErrorCode.RATE_LIMIT_EXCEEDED : String := "RATE_LIMIT_EXCEEDED"

def ErrorCode.SERVICE_UNAVAILABLE : String := "SERVICE_UNAVAILABLE"

def ErrorCode.VALIDATION_ERROR : String := "VALIDATION_ERROR"

def ErrorCode.OTP_NOT_FOUND : String := "OTP_NOT_FOUND"

def ErrorCode.AUTHENTICATION_FAILED : String := "AUTHENTICATION_FAILED"

def ErrorCode.OTP_EXPIRED : String := "OTP_EXPIRED"

def ErrorCode.INVALID_OTP_CODE : String := "INVALID_OTP_CODE"

def ErrorCode.INSUFFICIENT_BALANCE : String := "INSUFFICIENT_BALANCE"

def ErrorCode.NO_BRAND_CONFIGURED : String := "NO_BRAND_CONFIGURED"

def ErrorCode.BRAND_PENDING_APPROVAL : String := "BRAND_PENDING_APPROVAL"

def ErrorCode.IDEMPOTENCY_KEY_CONFLICT : String := "IDEMPOTENCY_KEY_CONFLICT"

def ErrorCode.API_KEY_REVOKED : String := "API_KEY_REVOKED"

/-- The `error` part of the API error envelope (`ApiErrorResponse.error`). -/
structure ApiErrorBody where
  code : String
  message : String
  statusCode : Nat
  retryable : Bool
  details : Option (List (String × String))
deriving DecidableEq, Repr

/-- The `meta` part of the API error envelope. -/
structure ApiErrorMeta where
  requestId : String
  timestamp : String
deriving DecidableEq, Repr

/-- Error envelope `{ success: false, error: {...}, meta: {...} }`. -/
structure ApiErrorResponse where
  error : ApiErrorBody
  meta : ApiErrorMeta
deriving DecidableEq, Repr

/-! ## errors.ts: `OtpError` and its subclasses -/

/-- The `OtpError` class: all fields are `readonly`, set in the constructor
and never mutated. The `name` field distinguishes the subclass used. -/
structure OtpError where
  name : String
  message : String
  code : String
  statusCode : Nat
  retryable : Bool
  details : Option (List (String × String))
  requestId : Option String
deriving DecidableEq, Repr

/-- The base `OtpError` constructor. -/
def OtpError.mkError (message code : String) (statusCode : Nat) (retryable : Bool)
    (details : Option (List (String × String))) (requestId : Option String) : OtpError :=
  { name := "OtpError", message := message, code := code, statusCode := statusCode,
    retryable := retryable, details := details, requestId := requestId }

/-- Model of `OtpError.fromApiError`: builds an `OtpError` from the error envelope,
copying every field of the payload through unchanged. -/
def OtpError.fromApiError (response : ApiErrorResponse) : OtpError :=
  OtpError.mkError response.error.message response.error.code response.error.statusCode
    response.error.retryable response.error.details (some response.meta.requestId)

/-- The `AuthenticationError` subclass constructor. -/
def AuthenticationError (message : String) (requestId : Option String) : OtpError :=
  { OtpError.mkError message ErrorCode.AUTHENTICATION_FAILED 401 false none requestId with
    name := "AuthenticationError" }

/-- The `ValidationError` subclass constructor. -/
def ValidationError (message : String) (details : Option (List (String × String)))
    (requestId : Option String) : OtpError :=
  { OtpError.mkError message ErrorCode.VALIDATION_ERROR 400 false details requestId with
    name := "ValidationError" }

/-- The `RateLimitError` subclass constructor. -/
def RateLimitError (message : String) (requestId : Option String) : OtpError :=
  { OtpError.mkError message ErrorCode.RATE_LIMIT_EXCEEDED 429 true none requestId with
    name := "RateLimitError" }

/-- The `OtpNotFoundError` subclass constructor. -/
def OtpNotFoundError (message : String) (requestId : Option String) : OtpError :=
  { OtpError.mkError message ErrorCode.OTP_NOT_FOUND 404 false none requestId with
    name := "OtpNotFoundError" }

/-- The `OtpExpiredError` subclass constructor. -/
def OtpExpiredError (message : String) (requestId : Option String) : OtpError :=
  { OtpError.mkError message ErrorCode.OTP_EXPIRED 400 false none requestId with
    name := "OtpExpiredError" }

/-- The `InvalidOtpError` subclass constructor. -/
def InvalidOtpError (message : String) (requestId : Option String) : OtpError :=
  { OtpError.mkError message ErrorCode.INVALID_OTP_CODE 400 false none requestId with
    name := "InvalidOtpError" }

/-- The `ServiceUnavailableError` subclass constructor. -/
def ServiceUnavailableError (message : String) (requestId : Option String) : OtpError :=
  { OtpError.mkError message ErrorCode.SERVICE_UNAVAILABLE 503 true none requestId with
    name := "ServiceUnavailableError" }

/-- The `InsufficientBalanceError` subclass constructor. -/
def InsufficientBalanceError (message : String) (requestId : Option String) : OtpError :=
  { OtpError.mkError message ErrorCode.INSUFFICIENT_BALANCE 402 false none requestId with
    name := "InsufficientBalanceError" }

/-- The `BrandNotConfiguredError` subclass constructor. -/
def BrandNotConfiguredError (message : String) (requestId : Option String) : OtpError :=
  { OtpError.mkError message ErrorCode.NO_BRAND_CONFIGURED 400 false none requestId with
    name := "BrandNotConfiguredError" }

/-- The `BrandPendingApprovalError` subclass constructor. -/
def BrandPendingApprovalError (message : String) (requestId : Option String) : OtpError :=
  { OtpError.mkError message ErrorCode.BRAND_PENDING_APPROVAL 403 false none requestId with
    name := "BrandPendingApprovalError" }

/-- The `IdempotencyConflictError` subclass constructor. -/
def IdempotencyConflictError (message : String) (requestId : Option String) : OtpError :=
  { OtpError.mkError message ErrorCode.IDEMPOTENCY_KEY_CONFLICT 409 false none requestId with
    name := "IdempotencyConflictError" }

/-- The `ApiKeyRevokedError` subclass constructor. -/
def ApiKeyRevokedError (message : String) (requestId : Option String) : OtpError :=
  { OtpError.mkError message ErrorCode.API_KEY_REVOKED 401 false none requestId with
    name := "ApiKeyRevokedError" }

/-! ## http-client.ts: header construction (constructor) -/

/-- The `SDK_VERSION` constant from `http-client.ts`. -/
def SDK_VERSION : String := "2.1.5"

/-- The `OtpClientConfig` from `types.ts` (fields relevant to the embedded layer).
`headers` keeps the entries of the caller's object literal in order. -/
structure OtpClientConfig where
  apiKey : String
  baseUrl : Option String
  timeout : Option Nat
  maxRetries : Option Nat
  headers : List (String × String)
  platform : Option String
  language : Option String
deriving DecidableEq, Repr

/-- One step of JavaScript object-literal evaluation: writing key `kv.1`
overwrites the value of an existing entry with that key (keeping its
position), otherwise appends a new entry. -/
def objWrite : List (String × String) → String × String → List (String × String)
  | [], kv => [kv]
  | p :: rest, kv => if p.1 = kv.1 then (p.1, kv.2) :: rest else p :: objWrite rest kv

/-- A JavaScript object literal: keys written left to right, later writes
to the same key overwriting earlier ones. -/
def objLiteral (entries : List (String × String)) : List (String × String) :=
  entries.foldl objWrite []

/-- Value of key `name` in an object (association-list lookup). -/
def headerValue (obj : List (String × String)) (name : String) : Option String :=
  (obj.find? (fun p => p.1 = name)).map (fun p => p.2)

/-- The value the last write to `name` in an entry sequence carries, if any. -/
def lastWrite (entries : List (String × String)) (name : String) : Option String :=
  (entries.reverse.find? (fun p => p.1 = name)).map (fun p => p.2)

/-- JavaScript `x || d` for an optional string: `undefined` and `""` are falsy. -/
def orElseStr (v : Option String) (d : String) : String :=
  match v with
  | some s => if s = "" then d else s
  | none => d

/-- JavaScript `x || d` for an optional number: `undefined` and `0` are falsy. -/
def orElseNum (v : Option Nat) (d : Nat) : Nat :=
  match v with
  | some n => if n = 0 then d else n
  | none => d

/-- Assignment `this.maxRetries = config.maxRetries || 3` from the `HttpClient` constructor. -/
def resolveMaxRetries (config : OtpClientConfig) : Nat :=
  orElseNum config.maxRetries 3

/-- The default-header object built by the `HttpClient` constructor:
the object literal writes the four fixed identification/credential headers
first and then spreads `config.headers`, so caller entries are written last.
`detectedPlatform`/`detectedLanguage` stand for `detectPlatform()` /
`detectLanguage()`. -/
def HttpClient.buildHeaders (config : OtpClientConfig)
    (detectedPlatform detectedLanguage : String) : List (String × String) :=
  objLiteral
    ([("Content-Type", "application/json"),
      ("X-API-Key", config.apiKey),
      ("X-OTP-SDK-Version", SDK_VERSION),
      ("X-OTP-SDK-Platform", orElseStr config.platform detectedPlatform),
      ("X-OTP-SDK-Language", orElseStr config.language detectedLanguage)]
      ++ config.headers)

/-! ## http-client.ts: response interceptor -/

/-- The `response` field of an `AxiosError`, when a response was received.
For the claims about fault classification only the (possibly absent)
structured error payload of its body matters. -/
structure AxiosResponseModel where
  data : Option ApiErrorResponse
deriving DecidableEq, Repr

/-- An `AxiosError` as the interceptor sees it: an optional response and an
opaque identity for the underlying transport fault. -/
structure AxiosErrorModel where
  response : Option AxiosResponseModel
  faultId : Nat
deriving DecidableEq, Repr

/-- What the response interceptor throws. -/
inductive InterceptedFault where
  | domain : OtpError → InterceptedFault
  | raw : AxiosErrorModel → InterceptedFault
deriving DecidableEq, Repr

/-- The error branch of the response interceptor installed by the
`HttpClient` constructor: `if (error.response?.data) throw
OtpError.fromApiError(...); throw error`. -/
def responseErrorHandler (error : AxiosErrorModel) : InterceptedFault :=
  match error.response with
  | some r =>
    match r.data with
    | some payload => .domain (OtpError.fromApiError payload)
    | none => .raw error
  | none => .raw error

/-! ## http-client.ts: the `post` retry loop -/

/-- Outcome of one raw `this.client.post` attempt, as the `catch` in
`HttpClient.post` can observe it: a successful unwrapped payload, a thrown
`OtpError` (produced by the response interceptor), or a thrown non-`OtpError`
(`instanceof OtpError` is false). -/
inductive AttemptOutcome (T : Type) where
  | success : T → AttemptOutcome T
  | otpFailure : OtpError → AttemptOutcome T
  | rawFailure : AxiosErrorModel → AttemptOutcome T
deriving DecidableEq, Repr

/-- What `HttpClient.post` resolves or throws. `thrownUndefined` models the
`throw lastError` after the loop, reachable only when the loop body never
ran (`maxRetries < 1`), in which case `lastError` is still `undefined`. -/
inductive PostResult (T : Type) where
  | ok : T → PostResult T
  | thrownOtp : OtpError → PostResult T
  | thrownRaw : AxiosErrorModel → PostResult T
  | thrownUndefined : PostResult T
deriving DecidableEq, Repr

/-- Observable trace of one `HttpClient.post` call: its result, the number
of raw attempts performed, the delays (ms) slept between attempts, and the
request each attempt sent. -/
structure PostTrace (ρ T : Type) where
  result : PostResult T
  calls : Nat
  delays : List Nat
  sent : List ρ
deriving DecidableEq, Repr

/-- The `for (let attempt = 1; attempt <= this.maxRetries; attempt++)` loop
of `HttpClient.post`. `server attempt` is the outcome the network produces
for the given attempt number; `req` is the fixed `(path, data, config)`
triple the loop re-sends verbatim. `fuel` counts loop iterations still
allowed; it is called with `fuel = maxRetries` and `attempt = 1` so that
`attempt + fuel = maxRetries + 1` throughout. -/
def postLoop {ρ T : Type} (server : Nat → AttemptOutcome T) (req : ρ)
    (maxRetries : Nat) : Nat → Nat → PostTrace ρ T
  | 0, _ => ⟨.thrownUndefined, 0, [], []⟩
  | fuel + 1, attempt =>
    match server attempt with
    | .success t => ⟨.ok t, 1, [], [req]⟩
    | .otpFailure e =>
      if e.retryable = true ∧ attempt < maxRetries then
        let rest := postLoop server req maxRetries fuel (attempt + 1)
        ⟨rest.result, rest.calls + 1, 2 ^ (attempt - 1) * 1000 :: rest.delays, req :: rest.sent⟩
      else
        ⟨.thrownOtp e, 1, [], [req]⟩
    | .rawFailure f => ⟨.thrownRaw f, 1, [], [req]⟩

/-- Model of `HttpClient.post`. -/
def HttpClient.post {ρ T : Type} (server : Nat → AttemptOutcome T) (req : ρ)
    (maxRetries : Nat) : PostTrace ρ T :=
  postLoop server req maxRetries maxRetries 1

/-! ## otp-client.ts: validation and idempotency keys -/

/-- Model of `OtpClient.validatePhoneNumber`: test against the E.164 regex
`^\+[1-9]\d\x7b1,14\x7d$` — a `+`, one digit `1`-`9`, then 1 to 14 digits. -/
def validatePhoneNumber (phoneNumber : String) : Bool :=
  match phoneNumber.data with
  | '+' :: c :: rest =>
    ('1' ≤ c && c ≤ '9') && rest.all (fun d => '0' ≤ d && d ≤ '9')
      && 1 ≤ rest.length && rest.length ≤ 14
  | _ => false

/-- Decimal digit to its character, as JavaScript number-to-string
rendering produces for each digit. -/
def digitChar (d : Nat) : Char :=
  if d = 0 then '0' else if d = 1 then '1' else if d = 2 then '2'
  else if d = 3 then '3' else if d = 4 then '4' else if d = 5 then '5'
  else if d = 6 then '6' else if d = 7 then '7' else if d = 8 then '8' else '9'

/-- Rendering of a non-negative integer in template-literal interpolation
(`${timestamp}`): its decimal digits, most significant first. -/
def numToString (n : Nat) : String :=
  if n = 0 then "0" else ⟨((Nat.digits 10 n).reverse).map digitChar⟩

/-- Model of `OtpClient.generateIdempotencyKey`: the template literal
`${timestamp}-${random}` where `timestamp = Date.now()` and `random` is the
base-36 fraction token from `Math.random()`. Both are explicit parameters
(one sample of each per invocation). -/
def generateIdempotencyKey (timestamp : Nat) (random : String) : String :=
  numToString timestamp ++ "-" ++ random

/-! ## otp-client.ts: sendOtp / verifyOtp -/

/-- The `SendOtpOptions` from `types.ts`. Optional fields are `Option`s; channel
values are their runtime strings. -/
structure SendOtpOptions where
  phoneNumber : String
  channel : Option String
  ttl : Option Nat
  length : Option Nat
  metadata : Option (List (String × String))
  idempotencyKey : Option String
deriving DecidableEq, Repr

/-- The request body `sendOtp` builds. -/
structure SendBody where
  phoneNumber : String
  channel : String
  ttl : Nat
  length : Nat
  metadata : Option (List (String × String))
deriving DecidableEq, Repr

/-- The `(path, body, headers)` triple a `sendOtp` attempt puts on the wire. -/
structure SendRequest where
  path : String
  body : SendBody
  headers : List (String × String)
deriving DecidableEq, Repr

/-- Wire payload of a successful send (`SendOtpResponse` before date
coercion). -/
structure SendWire where
  requestId : String
  expiresAt : String
  status : String
deriving DecidableEq, Repr

/-- Result of a `sendOtp` call: a synchronous local validation throw
(before any network activity), or the transport trace of the posted
request. The field-wise date coercion applied to a successful response
body does not affect any embedded claim and is left at the wire value. -/
inductive SendOutcome where
  | localError : String → SendOutcome
  | network : PostTrace SendRequest SendWire → SendOutcome
deriving DecidableEq, Repr

/-- Requests that reached the transport during a `sendOtp` call. -/
def SendOutcome.sentRequests : SendOutcome → List SendRequest
  | .localError _ => []
  | .network trace => trace.sent

/-- Model of `OtpClient.sendOtp`. `now`/`random` are the values `Date.now()` and
`Math.random()` would yield for the single `generateIdempotencyKey()`
invocation this call can make. -/
def sendOtp (server : Nat → AttemptOutcome SendWire) (maxRetries : Nat)
    (now : Nat) (random : String) (options : SendOtpOptions) : SendOutcome :=
  if validatePhoneNumber options.phoneNumber = false then
    .localError "Invalid phone number format. Must be in E.164 format (e.g., +995555123456)"
  else
    let body : SendBody :=
      { phoneNumber := options.phoneNumber,
        channel := orElseStr options.channel "SMS",
        ttl := orElseNum options.ttl 300,
        length := orElseNum options.length 6,
        metadata := options.metadata }
    let headers : List (String × String) :=
      [("X-Idempotency-Key", orElseStr options.idempotencyKey (generateIdempotencyKey now random))]
    .network (HttpClient.post server ⟨"/api/v1/otp/send", body, headers⟩ maxRetries)

/-- The `VerifyOtpOptions` from `types.ts`. -/
structure VerifyOtpOptions where
  requestId : String
  code : String
  ipAddress : Option String
  userAgent : Option String
deriving DecidableEq, Repr

/-- The request body `verifyOtp` builds. -/
structure VerifyBody where
  requestId : String
  code : String
  ipAddress : Option String
  userAgent : Option String
deriving DecidableEq, Repr

/-- The `(path, body)` pair a `verifyOtp` attempt puts on the wire
(`verifyOtp` passes no per-request config). -/
structure VerifyRequest where
  path : String
  body : VerifyBody
deriving DecidableEq, Repr

/-- Wire payload of a verification response. -/
structure VerifyWire where
  success : Bool
  message : String
deriving DecidableEq, Repr

/-- Result of a `verifyOtp` call. -/
inductive VerifyOutcome where
  | localError : String → VerifyOutcome
  | network : PostTrace VerifyRequest VerifyWire → VerifyOutcome
deriving DecidableEq, Repr

/-- Requests that reached the transport during a `verifyOtp` call. -/
def VerifyOutcome.sentRequests : VerifyOutcome → List VerifyRequest
  | .localError _ => []
  | .network trace => trace.sent

/-- Model of `OtpClient.verifyOtp`: `!options.requestId` and
`!options.code || code.length < 4 || code.length > 8` fail synchronously
before the transport is touched. -/
def verifyOtp (server : Nat → AttemptOutcome VerifyWire) (maxRetries : Nat)
    (options : VerifyOtpOptions) : VerifyOutcome :=
  if options.requestId = "" then
    .localError "Request ID is required"
  else if options.code = "" ∨ options.code.length < 4 ∨ options.code.length > 8 then
    .localError "Code must be between 4 and 8 characters"
  else
    .network (HttpClient.post server
      ⟨"/api/v1/otp/verify",
        ⟨options.requestId, options.code, options.ipAddress, options.userAgent⟩⟩ maxRetries)

/-! ## otp-client.ts: the configuration cache -/

/-- Constant `CONFIG_CACHE_TTL = 3600000` (1 hour in milliseconds). -/
def CONFIG_CACHE_TTL : Nat := 3600000

/-- The cache fields of `OtpClient`: `serverConfig` and
`serverConfigFetchedAt`, both initially `null`. The configuration content
type is abstract (`γ`). -/
structure CacheState (γ : Type) where
  serverConfig : Option γ
  serverConfigFetchedAt : Option Nat
deriving DecidableEq, Repr

/-- Observable effect of one `getConfig` call. -/
structure GetConfigResult (γ : Type) where
  value : γ
  state : CacheState γ
  didFetch : Bool
deriving DecidableEq, Repr

/-- Model of `OtpClient.getConfig`. `now` is `Date.now()` at this call; `fetched` is
the configuration the network would return if fetched. The guard mirrors
`!forceRefresh && this.serverConfig && this.serverConfigFetchedAt &&
Date.now() - this.serverConfigFetchedAt < this.CONFIG_CACHE_TTL`, with the
truthiness of the stored number (`t ≠ 0`) kept explicit and the
subtraction performed over the integers as JavaScript does. -/
def getConfig {γ : Type} (st : CacheState γ) (forceRefresh : Bool) (now : Nat)
    (fetched : γ) : GetConfigResult γ :=
  match st.serverConfig, st.serverConfigFetchedAt with
  | some c, some t =>
    if forceRefresh = false ∧ t ≠ 0 ∧ (now : Int) - (t : Int) < (CONFIG_CACHE_TTL : Int) then
      ⟨c, st, false⟩
    else
      ⟨fetched, ⟨some fetched, some now⟩, true⟩
  | _, _ => ⟨fetched, ⟨some fetched, some now⟩, true⟩

/-! ## Verification-side decoders for the idempotency key -/

/-- Inverse of `digitChar` on decimal digit characters. -/
def charToDigit (c : Char) : Nat :=
  if c = '0' then 0 else if c = '1' then 1 else if c = '2' then 2
  else if c = '3' then 3 else if c = '4' then 4 else if c = '5' then 5
  else if c = '6' then 6 else if c = '7' then 7 else if c = '8' then 8 else 9

/-- Reads a most-significant-first decimal character list back to the
number it renders. -/
def decodeDecimal (l : List Char) : Nat :=
  Nat.ofDigits 10 ((l.map charToDigit).reverse)

/-! ## Theorems about the error taxonomy (claims C4, C5) -/

/-- C4 counterexample: for a payload whose code is outside the known code
set, `OtpError.fromApiError` does not return an "unclassified" variant with
`retryable = false`; it passes the unknown code through and takes
`retryable` from the payload (here `true`). -/
theorem fromApiError_unknown_code_passthrough_cex :
    (OtpError.fromApiError
      ⟨⟨"TOTALLY_UNKNOWN_CODE", "boom", 418, true, none⟩, ⟨"req_1", "ts"⟩⟩).code
      = "TOTALLY_UNKNOWN_CODE" ∧
    (OtpError.fromApiError
      ⟨⟨"TOTALLY_UNKNOWN_CODE", "boom", 418, true, none⟩, ⟨"req_1", "ts"⟩⟩).retryable
      = true := by
  exact ⟨rfl, rfl⟩

/-- C4 (amended): `OtpError.fromApiError` is a total pure transform — it
never throws — and it copies `message`, `code`, `statusCode`, `retryable`,
`details` and the meta `requestId` from the payload unchanged; in
particular a code outside the known mapping is passed through (with the
payload's own `retryable`) rather than being replaced by a generic
"unclassified" variant. -/
theorem fromApiError_pass_through (response : ApiErrorResponse) :
    OtpError.fromApiError response =
      { name := "OtpError",
        message := response.error.message,
        code := response.error.code,
        statusCode := response.error.statusCode,
        retryable := response.error.retryable,
        details := response.error.details,
        requestId := some response.meta.requestId } := rfl

/-- C5 counterexample: two instantiations of the same kind
(`RATE_LIMIT_EXCEEDED`) with different `retryable` flags — the dedicated
subclass constructor fixes `retryable = true`, while `fromApiError` takes
it from the wire payload (here `false`) — so `retryable` is not a pure
function of the kind across every instantiation. -/
theorem retryable_varies_for_same_kind_cex :
    (RateLimitError "m" none).code =
      (OtpError.fromApiError
        ⟨⟨"RATE_LIMIT_EXCEEDED", "m", 429, false, none⟩, ⟨"r", "t"⟩⟩).code ∧
    (RateLimitError "m" none).retryable = true ∧
    (OtpError.fromApiError
      ⟨⟨"RATE_LIMIT_EXCEEDED", "m", 429, false, none⟩, ⟨"r", "t"⟩⟩).retryable = false := by
  exact ⟨rfl, rfl, rfl⟩

/-- C5 (amended): every `OtpError` field including `retryable` is fixed at
construction and never mutated (the embedding is immutable by
construction), and for the dedicated subclass constructors `retryable` is
a pure function of the kind — rate-limit and service-unavailable are
always retryable, validation and not-found (and every other subclass) are
never retryable; but errors built by `fromApiError` take `retryable` from
the payload, so instantiations of the same kind made that way can differ. -/
theorem subclass_retryable_fixed_per_kind (msg : String)
    (details : Option (List (String × String))) (reqId : Option String) :
    ((RateLimitError msg reqId).code = ErrorCode.RATE_LIMIT_EXCEEDED ∧
      (RateLimitError msg reqId).retryable = true) ∧
    ((ServiceUnavailableError msg reqId).code = ErrorCode.SERVICE_UNAVAILABLE ∧
      (ServiceUnavailableError msg reqId).retryable = true) ∧
    ((ValidationError msg details reqId).code = ErrorCode.VALIDATION_ERROR ∧
      (ValidationError msg details reqId).retryable = false) ∧
    ((OtpNotFoundError msg reqId).code = ErrorCode.OTP_NOT_FOUND ∧
      (OtpNotFoundError msg reqId).retryable = false) ∧
    (AuthenticationError msg reqId).retryable = false ∧
    (OtpExpiredError msg reqId).retryable = false ∧
    (InvalidOtpError msg reqId).retryable = false ∧
    (InsufficientBalanceError msg reqId).retryable = false ∧
    (BrandNotConfiguredError msg reqId).retryable = false ∧
    (BrandPendingApprovalError msg reqId).retryable = false ∧
    (IdempotencyConflictError msg reqId).retryable = false ∧
    (ApiKeyRevokedError msg reqId).retryable = false := by
  refine ⟨⟨rfl, rfl⟩, ⟨rfl, rfl⟩, ⟨rfl, rfl⟩, ⟨rfl, rfl⟩,
    rfl, rfl, rfl, rfl, rfl, rfl, rfl, rfl⟩

/-! ## Theorems about fault classification (claim C8) -/

/-- C8: a transport failure whose response carries a structured error
payload is translated through `OtpError.fromApiError`; a failure with no
response, or a response without a payload, is re-thrown as the raw
transport error unchanged, never reclassified as a domain error. -/
theorem transport_fault_classification (error : AxiosErrorModel) :
    (∀ r payload, error.response = some r → r.data = some payload →
        responseErrorHandler error = .domain (OtpError.fromApiError payload)) ∧
    ((error.response = none ∨ ∃ r, error.response = some r ∧ r.data = none) →
        responseErrorHandler error = .raw error) := by
  constructor
  · intro r payload hr hd
    simp [responseErrorHandler, hr, hd]
  · intro h
    rcases h with h | ⟨r, hr, hd⟩
    · simp [responseErrorHandler, h]
    · simp [responseErrorHandler, hr, hd]

/-- C8 witness: a connection-reset-style failure (no response at all)
propagates as the raw fault, and a failure carrying a payload is
translated. -/
theorem transport_fault_classification_witness :
    responseErrorHandler ⟨none, 7⟩ = .raw ⟨none, 7⟩ ∧
    responseErrorHandler ⟨some ⟨some ⟨⟨"OTP_EXPIRED", "e", 400, false, none⟩, ⟨"r", "t"⟩⟩⟩, 9⟩
      = .domain (OtpError.fromApiError ⟨⟨"OTP_EXPIRED", "e", 400, false, none⟩, ⟨"r", "t"⟩⟩) := by
  constructor
  · exact (transport_fault_classification ⟨none, 7⟩).2 (Or.inl rfl)
  · exact (transport_fault_classification
      ⟨some ⟨some ⟨⟨"OTP_EXPIRED", "e", 400, false, none⟩, ⟨"r", "t"⟩⟩⟩, 9⟩).1 _ _ rfl rfl

/-! ## Theorems about header construction (claim C3) -/

/-- Looking a key up after one object write: the written key now carries
the written value; other keys are unaffected. -/
theorem headerValue_objWrite (obj : List (String × String)) (kv : String × String)
    (name : String) :
    headerValue (objWrite obj kv) name =
      if name = kv.1 then some kv.2 else headerValue obj name := by
  induction obj with
  | nil =>
    by_cases h : name = kv.1 <;> simp [objWrite, headerValue, List.find?, h, eq_comm]
  | cons p rest ih =>
    by_cases hp : p.1 = kv.1
    · by_cases hn : name = kv.1
      · simp [objWrite, headerValue, List.find?, hp, hn]
      · have hpn : ¬ p.1 = name := by
          intro h; exact hn (h ▸ hp)
        have hkn : ¬ kv.1 = name := by
          intro h; exact hn h.symm
        simp [objWrite, headerValue, List.find?, hp, hn, hpn, hkn]
    · by_cases hq : p.1 = name
      · have hn : ¬ name = kv.1 := by
          intro h; exact hp (hq.trans h)
        simp [objWrite, headerValue, List.find?, hp, hq, hn]
      · simpa [objWrite, headerValue, List.find?, hp, hq] using ih

/-- Unfolding `lastWrite` one entry at a time. -/
theorem lastWrite_cons (kv : String × String) (tl : List (String × String))
    (name : String) :
    lastWrite (kv :: tl) name =
      match lastWrite tl name with
      | some v => some v
      | none => if name = kv.1 then some kv.2 else none := by
  unfold lastWrite
  rw [List.reverse_cons, List.find?_append]
  cases h : (tl.reverse.find? fun p => p.1 = name) with
  | none =>
    by_cases hn : kv.1 = name
    · simp [h, Option.orElse, List.find?, hn]
    · have hn' : ¬ name = kv.1 := by
        intro h2; exact hn h2.symm
      simp [h, Option.orElse, List.find?, hn, hn']
  | some v =>
    simp [h, Option.orElse]

/-- Folding a sequence of writes over an object: a key written by the
sequence ends at its last written value; a key never written keeps the
value it had in the initial object. -/
theorem headerValue_foldl_objWrite (entries : List (String × String))
    (obj : List (String × String)) (name : String) :
    headerValue (entries.foldl objWrite obj) name =
      match lastWrite entries name with
      | some v => some v
      | none => headerValue obj name := by
  induction entries generalizing obj with
  | nil => simp [lastWrite]
  | cons kv tl ih =>
    rw [List.foldl_cons, ih, lastWrite_cons]
    cases h : lastWrite tl name with
    | none =>
      by_cases hn : name = kv.1 <;> simp [headerValue_objWrite, hn]
    | some v => simp

/-- C3 counterexample: a caller whose custom headers carry
`X-OTP-SDK-Version` — the outgoing default-header object holds the
caller's value, not the SDK's, because `...config.headers` is spread after
the identification headers in the constructor's object literal. -/
theorem identification_headers_lose_on_collision_cex :
    headerValue
      (HttpClient.buildHeaders
        ⟨"key", none, none, none, [("X-OTP-SDK-Version", "custom-value")], none, none⟩
        "node" "typescript")
      "X-OTP-SDK-Version" = some "custom-value" ∧
    "custom-value" ≠ SDK_VERSION := by
  constructor
  · rfl
  · decide

/-- C3 (amended): on a name collision between caller-supplied custom
headers and the fixed identification headers, the custom header's (last
written) value wins — the constructor spreads `config.headers` last, so
caller entries overwrite the identification entries, not the other way
round. -/
theorem custom_headers_win_on_collision (config : OtpClientConfig)
    (detectedPlatform detectedLanguage : String) (name v : String)
    (h : lastWrite config.headers name = some v) :
    headerValue (HttpClient.buildHeaders config detectedPlatform detectedLanguage) name
      = some v := by
  unfold HttpClient.buildHeaders objLiteral
  rw [List.foldl_append, headerValue_foldl_objWrite, h]

/-- C3 witness: instantiates the amended theorem at a concrete
configuration colliding on `X-OTP-SDK-Platform`. -/
theorem custom_headers_win_on_collision_witness :
    headerValue
      (HttpClient.buildHeaders
        ⟨"key", none, none, none, [("X-OTP-SDK-Platform", "my-platform")], none, none⟩
        "node" "typescript")
      "X-OTP-SDK-Platform" = some "my-platform" :=
  custom_headers_win_on_collision
    ⟨"key", none, none, none, [("X-OTP-SDK-Platform", "my-platform")], none, none⟩
    "node" "typescript" "X-OTP-SDK-Platform" "my-platform" (by decide)

/-! ## Theorems about the configuration cache (claim C7) -/

/-- C7: a non-forced `getConfig` call finding a snapshot fetched less than
one hour earlier (at a positive clock reading) returns the cached content
with no fetch and leaves the state untouched; `forceRefresh = true` always
fetches; any fetching call replaces the snapshot wholesale (content and
fetch timestamp together) and returns the fetched content; hence in a pair
of non-forced calls whose first call fetched at `now1` and whose second
call runs at `now2` within the TTL, only the first call fetches and the
second returns the first's content. -/
theorem config_cache_policy {γ : Type} (st : CacheState γ) (c fetched c1 c2 : γ)
    (t now now1 now2 : Nat) :
    (st.serverConfig = some c → st.serverConfigFetchedAt = some t → 0 < t →
      (now : Int) - (t : Int) < (CONFIG_CACHE_TTL : Int) →
      getConfig st false now fetched = ⟨c, st, false⟩) ∧
    ((getConfig st true now fetched).didFetch = true) ∧
    ((getConfig st false now fetched).didFetch = true →
      getConfig st false now fetched = ⟨fetched, ⟨some fetched, some now⟩, true⟩) ∧
    (0 < now1 → (now2 : Int) - (now1 : Int) < (CONFIG_CACHE_TTL : Int) →
      (getConfig st false now1 c1).didFetch = true →
      getConfig (getConfig st false now1 c1).state false now2 c2 =
        ⟨c1, ⟨some c1, some now1⟩, false⟩) := by
  refine ⟨?_, ?_, ?_, ?_⟩
  · intro hc ht htpos httl
    simp [getConfig, hc, ht, Nat.pos_iff_ne_zero.mp htpos, httl]
  · unfold getConfig
    cases hc : st.serverConfig with
    | none => cases st.serverConfigFetchedAt <;> simp
    | some c0 => cases st.serverConfigFetchedAt <;> simp
  · unfold getConfig
    cases hc : st.serverConfig with
    | none => cases st.serverConfigFetchedAt <;> simp
    | some c0 =>
      cases ht : st.serverConfigFetchedAt with
      | none => simp
      | some t0 =>
        by_cases hguard : t0 ≠ 0 ∧ (now : Int) - (t0 : Int) < (CONFIG_CACHE_TTL : Int)
        · simp [hguard]
        · simp only [eq_self_iff_true, true_and] at hguard ⊢
          simp [hguard]
  · intro hpos httl hfetch
    have hstep : getConfig st false now1 c1 = ⟨c1, ⟨some c1, some now1⟩, true⟩ := by
      revert hfetch
      unfold getConfig
      cases hc : st.serverConfig with
      | none => cases st.serverConfigFetchedAt <;> simp
      | some c0 =>
        cases ht : st.serverConfigFetchedAt with
        | none => simp
        | some t0 =>
          by_cases hguard : t0 ≠ 0 ∧ (now1 : Int) - (t0 : Int) < (CONFIG_CACHE_TTL : Int)
          · simp [hguard]
          · simp only [eq_self_iff_true, true_and] at hguard ⊢
            simp [hguard]
    rw [hstep]
    simp [getConfig, Nat.pos_iff_ne_zero.mp hpos, httl]

/-- C7 witness: from an empty cache, a first non-forced call at 1000 ms
fetches; a second non-forced call ten minutes later returns the first
call's content without fetching; a forced call always fetches. -/
theorem config_cache_policy_witness :
    getConfig (getConfig (⟨none, none⟩ : CacheState Nat) false 1000 42).state false 601000 43 =
      ⟨42, ⟨some 42, some 1000⟩, false⟩ ∧
    (getConfig (⟨some 42, some 1000⟩ : CacheState Nat) true 1001 43).didFetch = true := by
  constructor
  · exact (config_cache_policy (⟨none, none⟩ : CacheState Nat) 0 0 42 43 0 0 1000 601000).2.2.2
      (by decide) (by decide) (by decide)
  · exact (config_cache_policy (⟨some 42, some 1000⟩ : CacheState Nat) 0 0 43 0 0 1001 0 0).2.1

/-! ## Theorems about local validation (claim C6) -/

/-- C6: a `sendOtp` call whose phone number fails the E.164 check, and a
`verifyOtp` call whose request id is empty or whose code length lies
outside [4, 8], fail synchronously with a local error and put no request
on the wire — no retry budget is consumed. -/
theorem local_validation_no_network (sserver : Nat → AttemptOutcome SendWire)
    (vserver : Nat → AttemptOutcome VerifyWire) (maxRetries now : Nat) (random : String)
    (sopts : SendOtpOptions) (vopts : VerifyOtpOptions) :
    (validatePhoneNumber sopts.phoneNumber = false →
      (∃ msg, sendOtp sserver maxRetries now random sopts = .localError msg) ∧
      (sendOtp sserver maxRetries now random sopts).sentRequests = []) ∧
    ((vopts.requestId = "" ∨ vopts.code.length < 4 ∨ vopts.code.length > 8) →
      (∃ msg, verifyOtp vserver maxRetries vopts = .localError msg) ∧
      (verifyOtp vserver maxRetries vopts).sentRequests = []) := by
  constructor
  · intro h
    constructor
    · exact ⟨"Invalid phone number format. Must be in E.164 format (e.g., +995555123456)",
        by simp [sendOtp, h]⟩
    · simp [sendOtp, h, SendOutcome.sentRequests]
  · intro h
    by_cases hid : vopts.requestId = ""
    · constructor
      · exact ⟨"Request ID is required", by simp [verifyOtp, hid]⟩
      · simp [verifyOtp, hid, VerifyOutcome.sentRequests]
    · have hcode : vopts.code = "" ∨ vopts.code.length < 4 ∨ vopts.code.length > 8 := by
        rcases h with h | h | h
        · exact absurd h hid
        · exact Or.inr (Or.inl h)
        · exact Or.inr (Or.inr h)
      constructor
      · exact ⟨"Code must be between 4 and 8 characters", by simp [verifyOtp, hid, hcode]⟩
      · simp [verifyOtp, hid, hcode, VerifyOutcome.sentRequests]

/-- C6 witness: the malformed number `"123456"` and the short code `"123"`
fail locally with an empty wire trace. -/
theorem local_validation_no_network_witness :
    ((∃ msg, sendOtp (fun _ => .rawFailure ⟨none, 0⟩) 3 5 "tok"
        ⟨"123456", none, none, none, none, none⟩ = .localError msg) ∧
      (sendOtp (fun _ => .rawFailure ⟨none, 0⟩) 3 5 "tok"
        ⟨"123456", none, none, none, none, none⟩).sentRequests = []) ∧
    ((∃ msg, verifyOtp (fun _ => .rawFailure ⟨none, 0⟩) 3
        ⟨"req_1", "123", none, none⟩ = .localError msg) ∧
      (verifyOtp (fun _ => .rawFailure ⟨none, 0⟩) 3
        ⟨"req_1", "123", none, none⟩).sentRequests = []) := by
  constructor
  · exact (local_validation_no_network (fun _ => .rawFailure ⟨none, 0⟩)
      (fun _ => .rawFailure ⟨none, 0⟩) 3 5 "tok"
      ⟨"123456", none, none, none, none, none⟩ ⟨"req_1", "123", none, none⟩).1 (by decide)
  · exact (local_validation_no_network (fun _ => .rawFailure ⟨none, 0⟩)
      (fun _ => .rawFailure ⟨none, 0⟩) 3 5 "tok"
      ⟨"123456", none, none, none, none, none⟩ ⟨"req_1", "123", none, none⟩).2
      (Or.inr (Or.inl (by decide)))

/-! ## Theorems about falsy optional fields (claim C10) -/

/-- C10: supplying `ttl = 0`, `length = 0` or `idempotencyKey = ""` to
`sendOtp` behaves exactly as omitting the field — `||` treats them as
falsy — so the body carries `ttl = 300` and `length = 6` and a fresh key
is generated, silently discarding the caller's value. -/
theorem falsy_optionals_behave_as_omitted (server : Nat → AttemptOutcome SendWire)
    (maxRetries now : Nat) (random : String) (options : SendOtpOptions) :
    (sendOtp server maxRetries now random { options with ttl := some 0 } =
      sendOtp server maxRetries now random { options with ttl := none }) ∧
    (sendOtp server maxRetries now random { options with length := some 0 } =
      sendOtp server maxRetries now random { options with length := none }) ∧
    (sendOtp server maxRetries now random { options with idempotencyKey := some "" } =
      sendOtp server maxRetries now random { options with idempotencyKey := none }) ∧
    (validatePhoneNumber options.phoneNumber = true →
      sendOtp server maxRetries now random
          { options with ttl := some 0, length := some 0, idempotencyKey := some "" } =
        .network (HttpClient.post server
          ⟨"/api/v1/otp/send",
            ⟨options.phoneNumber, orElseStr options.channel "SMS", 300, 6, options.metadata⟩,
            [("X-Idempotency-Key", generateIdempotencyKey now random)]⟩ maxRetries)) := by
  refine ⟨?_, ?_, ?_, ?_⟩
  · simp [sendOtp, orElseNum]
  · simp [sendOtp, orElseNum]
  · simp [sendOtp, orElseStr]
  · intro h
    simp [sendOtp, h, orElseNum, orElseStr]

/-- C10 witness: a concrete valid call supplying all three falsy values
produces the defaulted body and a generated key. -/
theorem falsy_optionals_behave_as_omitted_witness :
    sendOtp (fun _ => .rawFailure ⟨none, 0⟩) 3 5 "tok"
        ⟨"+995555123456", none, some 0, some 0, none, some ""⟩ =
      .network (HttpClient.post (fun _ => .rawFailure ⟨none, 0⟩)
        ⟨"/api/v1/otp/send", ⟨"+995555123456", "SMS", 300, 6, none⟩,
          [("X-Idempotency-Key", generateIdempotencyKey 5 "tok")]⟩ 3) :=
  (falsy_optionals_behave_as_omitted (fun _ => .rawFailure ⟨none, 0⟩) 3 5 "tok"
    ⟨"+995555123456", none, none, none, none, none⟩).2.2.2 (by decide)

/-! ## Lemmas about the retry loop -/

/-- Every attempt of the loop sends the very same request object the call
was given. -/
theorem postLoop_sent_replicate {ρ T : Type} (server : Nat → AttemptOutcome T) (req : ρ)
    (m : Nat) : ∀ fuel attempt, (postLoop server req m fuel attempt).sent =
      List.replicate (postLoop server req m fuel attempt).calls req := by
  intro fuel
  induction fuel with
  | zero => intro attempt; simp [postLoop]
  | succ fuel ih =>
    intro attempt
    cases h : server attempt with
    | success t => simp [postLoop, h]
    | otpFailure e =>
      by_cases hg : e.retryable = true ∧ attempt < m
      · simp [postLoop, h, hg, ih (attempt + 1), List.replicate_succ]
      · simp [postLoop, h, hg]
    | rawFailure f => simp [postLoop, h]

/-- The loop performs at most `fuel` raw attempts. -/
theorem postLoop_calls_le {ρ T : Type} (server : Nat → AttemptOutcome T) (req : ρ)
    (m : Nat) : ∀ fuel attempt, (postLoop server req m fuel attempt).calls ≤ fuel := by
  intro fuel
  induction fuel with
  | zero => intro attempt; simp [postLoop]
  | succ fuel ih =>
    intro attempt
    cases h : server attempt with
    | success t => simp [postLoop, h]
    | otpFailure e =>
      by_cases hg : e.retryable = true ∧ attempt < m
      · have hrec := ih (attempt + 1)
        have hstep : (postLoop server req m (fuel + 1) attempt).calls =
            (postLoop server req m fuel (attempt + 1)).calls + 1 := by
          simp only [postLoop, h]
          rw [if_pos hg]
        omega
      · simp [postLoop, h, hg]
    | rawFailure f => simp [postLoop, h]

/-- The loop performs at least one raw attempt when it may iterate at all. -/
theorem postLoop_calls_pos {ρ T : Type} (server : Nat → AttemptOutcome T) (req : ρ)
    (m fuel attempt : Nat) (h : 1 ≤ fuel) :
    1 ≤ (postLoop server req m fuel attempt).calls := by
  obtain ⟨fuel', rfl⟩ : ∃ fuel', fuel = fuel' + 1 := ⟨fuel - 1, by omega⟩
  cases hs : server attempt with
  | success t => simp [postLoop, hs]
  | otpFailure e =>
    by_cases hg : e.retryable = true ∧ attempt < m
    · simp [postLoop, hs, hg]
    · simp [postLoop, hs, hg]
  | rawFailure f => simp [postLoop, hs]

/-- Peeling one delay off the exponential-backoff schedule. -/
theorem delay_schedule_cons (a n : Nat) (ha : 1 ≤ a) :
    (List.range (n + 1)).map (fun i => 2 ^ (a - 1 + i) * 1000) =
      2 ^ (a - 1) * 1000 :: (List.range n).map (fun i => 2 ^ (a + i) * 1000) := by
  rw [List.range_succ_eq_map, List.map_cons, List.map_map]
  refine congrArg₂ List.cons ?_ ?_
  · show 2 ^ (a - 1 + 0) * 1000 = 2 ^ (a - 1) * 1000
    rw [Nat.add_zero]
  · apply List.map_congr_left
    intro i _
    show 2 ^ (a - 1 + (i + 1)) * 1000 = 2 ^ (a + i) * 1000
    have hexp : a - 1 + (i + 1) = a + i := by omega
    rw [hexp]

/-- Run of the loop that first succeeds at attempt `K`: every earlier
attempt fails retryably, the result is the success payload, exactly
`K + 1 - attempt` calls are made and the delays follow the exponential
schedule. -/
theorem postLoop_first_success {ρ T : Type} (server : Nat → AttemptOutcome T) (req : ρ)
    (m K : Nat) (t : T) (hK : K ≤ m) (hsrv : server K = .success t)
    (hfail : ∀ j, 1 ≤ j → j < K → ∃ err, server j = .otpFailure err ∧ err.retryable = true) :
    ∀ fuel attempt, attempt + fuel = m + 1 → 1 ≤ attempt → attempt ≤ K →
      postLoop server req m fuel attempt =
        ⟨.ok t, K + 1 - attempt,
          (List.range (K - attempt)).map (fun i => 2 ^ (attempt - 1 + i) * 1000),
          List.replicate (K + 1 - attempt) req⟩ := by
  intro fuel
  induction fuel with
  | zero =>
    intro attempt hsum hpos hle
    omega
  | succ fuel ih =>
    intro attempt hsum hpos hle
    by_cases heq : attempt = K
    · have hsrv' : server attempt = .success t := by rw [heq]; exact hsrv
      have h1 : K + 1 - attempt = 1 := by omega
      have h0 : K - attempt = 0 := by omega
      rw [h1, h0]
      simp [postLoop, hsrv']
    · have hlt : attempt < K := lt_of_le_of_ne hle heq
      obtain ⟨err, herr, hret⟩ := hfail attempt hpos hlt
      have hm : attempt < m := by omega
      have hrec := ih (attempt + 1) (by omega) (by omega) (by omega)
      have hKd : K - attempt = (K - (attempt + 1)) + 1 := by omega
      rw [hKd, delay_schedule_cons attempt (K - (attempt + 1)) hpos]
      have hstep : postLoop server req m (fuel + 1) attempt =
          ⟨(postLoop server req m fuel (attempt + 1)).result,
            (postLoop server req m fuel (attempt + 1)).calls + 1,
            2 ^ (attempt - 1) * 1000 :: (postLoop server req m fuel (attempt + 1)).delays,
            req :: (postLoop server req m fuel (attempt + 1)).sent⟩ := by
        simp only [postLoop, herr]
        rw [if_pos ⟨hret, hm⟩]
      rw [hstep, hrec]
      dsimp only
      refine (PostTrace.mk.injEq _ _ _ _ _ _ _ _).mpr ⟨rfl, by omega, ?_, ?_⟩
      · refine congrArg₂ List.cons rfl ?_
        apply List.map_congr_left
        intro i _
        show 2 ^ (attempt + 1 - 1 + i) * 1000 = 2 ^ (attempt + i) * 1000
        have hexp : attempt + 1 - 1 + i = attempt + i := by omega
        rw [hexp]
      · rw [show K + 1 - attempt = (K + 1 - (attempt + 1)) + 1 from by omega,
          List.replicate_succ]

/-- Run of the loop in which every allowed attempt fails retryably: all
`fuel` attempts are made, the delays follow the exponential schedule, and
the error of the final attempt is thrown unchanged. -/
theorem postLoop_exhaustion {ρ T : Type} (server : Nat → AttemptOutcome T) (req : ρ)
    (m : Nat) (em : OtpError)
    (hfail : ∀ j, 1 ≤ j → j ≤ m → ∃ err, server j = .otpFailure err ∧ err.retryable = true)
    (hlast : server m = .otpFailure em) :
    ∀ fuel attempt, attempt + fuel = m + 1 → 1 ≤ attempt → attempt ≤ m →
      postLoop server req m fuel attempt =
        ⟨.thrownOtp em, fuel,
          (List.range (fuel - 1)).map (fun i => 2 ^ (attempt - 1 + i) * 1000),
          List.replicate fuel req⟩ := by
  intro fuel
  induction fuel with
  | zero =>
    intro attempt hsum hpos hle
    omega
  | succ fuel ih =>
    intro attempt hsum hpos hle
    by_cases hlt : attempt < m
    · obtain ⟨err, herr, hret⟩ := hfail attempt hpos (le_of_lt hlt)
      have hrec := ih (attempt + 1) (by omega) (by omega) (by omega)
      have hfuel : fuel = (fuel - 1) + 1 := by omega
      have hstep : postLoop server req m (fuel + 1) attempt =
          ⟨(postLoop server req m fuel (attempt + 1)).result,
            (postLoop server req m fuel (attempt + 1)).calls + 1,
            2 ^ (attempt - 1) * 1000 :: (postLoop server req m fuel (attempt + 1)).delays,
            req :: (postLoop server req m fuel (attempt + 1)).sent⟩ := by
        simp only [postLoop, herr]
        rw [if_pos ⟨hret, hlt⟩]
      rw [hstep, hrec]
      dsimp only
      rw [show fuel + 1 - 1 = (fuel - 1) + 1 from by omega,
        delay_schedule_cons attempt (fuel - 1) hpos]
      refine (PostTrace.mk.injEq _ _ _ _ _ _ _ _).mpr ⟨rfl, rfl, ?_, ?_⟩
      · refine congrArg₂ List.cons rfl ?_
        apply List.map_congr_left
        intro i _
        show 2 ^ (attempt + 1 - 1 + i) * 1000 = 2 ^ (attempt + i) * 1000
        have hexp : attempt + 1 - 1 + i = attempt + i := by omega
        rw [hexp]
      · rw [List.replicate_succ]
    · have heq : attempt = m := by omega
      have hf0 : fuel = 0 := by omega
      subst hf0
      have hsrv' : server attempt = .otpFailure em := by rw [heq]; exact hlast
      simp [postLoop, hsrv', hlt]

/-- The `resolveMaxRetries` value is always at least 1 (`0` is falsy and replaced by
the default 3). -/
theorem resolveMaxRetries_pos (config : OtpClientConfig) :
    1 ≤ resolveMaxRetries config := by
  unfold resolveMaxRetries orElseNum
  cases config.maxRetries with
  | none => decide
  | some n =>
    by_cases h : n = 0
    · simp [h]
    · simp [h]
      omega

/-! ## Theorems about the transport retry policy (claim C1) -/

/-- C1: for a `post` with the configured maximum attempts
(`maxRetries || 3`, so 3 by default): the loop performs between 1 and
`maxRetries` raw calls; a first-attempt failure whose `OtpError` is not
retryable is thrown immediately after exactly 1 call with no delay; a
first success at attempt `K` (all earlier failures retryable) stops the
loop at exactly `K` calls with delays `2^(attempt-1)` seconds (1000 ms,
2000 ms, ...); and when every attempt fails retryably the loop performs
exactly `maxRetries` calls, sleeps the same schedule, and throws the last
attempt's `OtpError` unchanged. -/
theorem transport_retry_policy (config : OtpClientConfig) {ρ T : Type}
    (server : Nat → AttemptOutcome T) (req : ρ) :
    (config.maxRetries = none → resolveMaxRetries config = 3) ∧
    (1 ≤ (HttpClient.post server req (resolveMaxRetries config)).calls ∧
      (HttpClient.post server req (resolveMaxRetries config)).calls
        ≤ resolveMaxRetries config) ∧
    (∀ e, server 1 = .otpFailure e → e.retryable = false →
      HttpClient.post server req (resolveMaxRetries config) =
        ⟨.thrownOtp e, 1, [], [req]⟩) ∧
    (∀ K t, 1 ≤ K → K ≤ resolveMaxRetries config → server K = .success t →
      (∀ j, 1 ≤ j → j < K → ∃ err, server j = .otpFailure err ∧ err.retryable = true) →
      HttpClient.post server req (resolveMaxRetries config) =
        ⟨.ok t, K, (List.range (K - 1)).map (fun i => 2 ^ i * 1000),
          List.replicate K req⟩) ∧
    (∀ em,
      (∀ j, 1 ≤ j → j ≤ resolveMaxRetries config →
        ∃ err, server j = .otpFailure err ∧ err.retryable = true) →
      server (resolveMaxRetries config) = .otpFailure em →
      HttpClient.post server req (resolveMaxRetries config) =
        ⟨.thrownOtp em, resolveMaxRetries config,
          (List.range (resolveMaxRetries config - 1)).map (fun i => 2 ^ i * 1000),
          List.replicate (resolveMaxRetries config) req⟩) := by
  have hpos := resolveMaxRetries_pos config
  refine ⟨?_, ⟨?_, ?_⟩, ?_, ?_, ?_⟩
  · intro h
    unfold resolveMaxRetries orElseNum
    rw [h]
  · exact postLoop_calls_pos server req _ _ 1 hpos
  · exact postLoop_calls_le server req _ _ 1
  · intro e hsrv hret
    obtain ⟨m', hm'⟩ : ∃ m', resolveMaxRetries config = m' + 1 :=
      ⟨resolveMaxRetries config - 1, by omega⟩
    unfold HttpClient.post
    rw [hm']
    simp [postLoop, hsrv, hret]
  · intro K t hK1 hKm hsrv hfail
    have h := postLoop_first_success server req (resolveMaxRetries config) K t hKm hsrv hfail
      (resolveMaxRetries config) 1 (by omega) (le_refl 1) hK1
    unfold HttpClient.post
    rw [h]
    refine (PostTrace.mk.injEq _ _ _ _ _ _ _ _).mpr ⟨rfl, by omega, ?_, by rw [show K + 1 - 1 = K from by omega]⟩
    apply List.map_congr_left
    intro i _
    show 2 ^ (1 - 1 + i) * 1000 = 2 ^ i * 1000
    have hexp : 1 - 1 + i = i := by omega
    rw [hexp]
  · intro em hfail hlast
    have h := postLoop_exhaustion server req (resolveMaxRetries config) em hfail hlast
      (resolveMaxRetries config) 1 (by omega) (le_refl 1) hpos
    unfold HttpClient.post
    rw [h]
    refine (PostTrace.mk.injEq _ _ _ _ _ _ _ _).mpr ⟨rfl, rfl, ?_, rfl⟩
    apply List.map_congr_left
    intro i _
    show 2 ^ (1 - 1 + i) * 1000 = 2 ^ i * 1000
    have hexp : 1 - 1 + i = i := by omega
    rw [hexp]

/-- C1 witness: with the default 3 attempts and a server that always
fails with a retryable service-unavailable error, the loop makes exactly
3 calls, sleeps 1000 ms and 2000 ms, and throws the last error unchanged;
the default configuration resolves to 3 attempts. -/
theorem transport_retry_policy_witness :
    HttpClient.post
        (fun _ => AttemptOutcome.otpFailure (T := Unit) (ServiceUnavailableError "u" none))
        () 3 =
      ⟨.thrownOtp (ServiceUnavailableError "u" none), 3,
        (List.range 2).map (fun i => 2 ^ i * 1000), List.replicate 3 ()⟩ ∧
    resolveMaxRetries ⟨"k", none, none, none, [], none, none⟩ = 3 := by
  constructor
  · exact (transport_retry_policy ⟨"k", none, none, none, [], none, none⟩
      (fun _ => AttemptOutcome.otpFailure (T := Unit) (ServiceUnavailableError "u" none))
      ()).2.2.2.2 (ServiceUnavailableError "u" none)
      (fun j _ _ => ⟨ServiceUnavailableError "u" none, rfl, rfl⟩) rfl
  · exact (transport_retry_policy ⟨"k", none, none, none, [], none, none⟩
      (fun _ => AttemptOutcome.otpFailure (T := Unit) (ServiceUnavailableError "u" none))
      ()).1 rfl

/-! ## Theorems about idempotency-key stability across retries (claim C2) -/

/-- C2: within one `sendOtp` call, every request the retry loop puts on
the wire is identical: the same body and the same single-entry header list
whose `X-Idempotency-Key` is the caller's key (when truthy) or the key
generated from the one `(Date.now(), Math.random())` sample taken before
the loop — the key is computed exactly once and never regenerated on
retry. -/
theorem sendOtp_key_stable (server : Nat → AttemptOutcome SendWire)
    (maxRetries now : Nat) (random : String) (options : SendOtpOptions) :
    (∀ r1 r2, r1 ∈ (sendOtp server maxRetries now random options).sentRequests →
      r2 ∈ (sendOtp server maxRetries now random options).sentRequests → r1 = r2) ∧
    (∀ r, r ∈ (sendOtp server maxRetries now random options).sentRequests →
      r.headers = [("X-Idempotency-Key",
        orElseStr options.idempotencyKey (generateIdempotencyKey now random))] ∧
      r.body = ⟨options.phoneNumber, orElseStr options.channel "SMS",
        orElseNum options.ttl 300, orElseNum options.length 6, options.metadata⟩) := by
  by_cases hv : validatePhoneNumber options.phoneNumber = false
  · constructor
    · intro r1 r2 h1 h2
      simp [sendOtp, hv, SendOutcome.sentRequests] at h1
    · intro r hr
      simp [sendOtp, hv, SendOutcome.sentRequests] at hr
  · have hsent : (sendOtp server maxRetries now random options).sentRequests =
        List.replicate
          (postLoop server
            (⟨"/api/v1/otp/send",
              ⟨options.phoneNumber, orElseStr options.channel "SMS",
                orElseNum options.ttl 300, orElseNum options.length 6, options.metadata⟩,
              [("X-Idempotency-Key",
                orElseStr options.idempotencyKey (generateIdempotencyKey now random))]⟩ :
              SendRequest)
            maxRetries maxRetries 1).calls
          ⟨"/api/v1/otp/send",
            ⟨options.phoneNumber, orElseStr options.channel "SMS",
              orElseNum options.ttl 300, orElseNum options.length 6, options.metadata⟩,
            [("X-Idempotency-Key",
              orElseStr options.idempotencyKey (generateIdempotencyKey now random))]⟩ := by
      unfold sendOtp
      rw [if_neg hv]
      exact postLoop_sent_replicate _ _ _ maxRetries 1
    constructor
    · intro r1 r2 h1 h2
      rw [hsent] at h1 h2
      rw [List.eq_of_mem_replicate h1, List.eq_of_mem_replicate h2]
    · intro r hr
      rw [hsent] at hr
      rw [List.eq_of_mem_replicate hr]
      exact ⟨rfl, rfl⟩

/-- C2 witness: a send whose first attempt fails retryably and whose
second succeeds puts two identical requests on the wire, both carrying
the caller's idempotency key. -/
theorem sendOtp_key_stable_witness :
    (⟨"/api/v1/otp/send", ⟨"+995555123456", "SMS", 300, 6, none⟩,
        [("X-Idempotency-Key", "custom-key")]⟩ : SendRequest).headers =
      [("X-Idempotency-Key", "custom-key")] ∧
    (⟨"/api/v1/otp/send", ⟨"+995555123456", "SMS", 300, 6, none⟩,
        [("X-Idempotency-Key", "custom-key")]⟩ : SendRequest).body =
      ⟨"+995555123456", "SMS", 300, 6, none⟩ :=
  (sendOtp_key_stable
    (fun j => if j = 1 then .otpFailure (ServiceUnavailableError "u" none)
      else .success ⟨"req_1", "2025-01-01T00:00:00Z", "PENDING"⟩)
    3 5 "tok"
    ⟨"+995555123456", none, none, none, none, some "custom-key"⟩).2
    ⟨"/api/v1/otp/send", ⟨"+995555123456", "SMS", 300, 6, none⟩,
      [("X-Idempotency-Key", "custom-key")]⟩
    (by decide)

/-! ## Theorems about idempotency-key uniqueness (claim C9) -/

/-- The function `digitChar` never renders the separator `-`. -/
theorem digitChar_ne_dash (d : Nat) : digitChar d ≠ '-' := by
  unfold digitChar
  split_ifs <;> decide

/-- The function `charToDigit` inverts `digitChar` on actual digits. -/
theorem charToDigit_digitChar (d : Nat) (h : d < 10) :
    charToDigit (digitChar d) = d := by
  interval_cases d <;> decide

/-- The decimal rendering of a number contains no `-`. -/
theorem numToString_no_dash (n : Nat) : '-' ∉ (numToString n).data := by
  unfold numToString
  by_cases h : n = 0
  · simp [h]
  · rw [if_neg h]
    intro hmem
    obtain ⟨d, _, hd⟩ := List.mem_map.mp hmem
    exact digitChar_ne_dash d hd

/-- The function `decodeDecimal` inverts the decimal rendering. -/
theorem decodeDecimal_numToString (n : Nat) :
    decodeDecimal (numToString n).data = n := by
  unfold numToString
  by_cases h : n = 0
  · rw [if_pos h, h]
    decide
  · rw [if_neg h]
    show decodeDecimal ((Nat.digits 10 n).reverse.map digitChar) = n
    unfold decodeDecimal
    rw [List.map_map]
    have hmap : (Nat.digits 10 n).reverse.map (charToDigit ∘ digitChar)
        = (Nat.digits 10 n).reverse.map id := by
      apply List.map_congr_left
      intro d hd
      have hd' : d ∈ Nat.digits 10 n := List.mem_reverse.mp hd
      simpa using charToDigit_digitChar d (Nat.digits_lt_base (by norm_num) hd')
    rw [hmap, List.map_id, List.reverse_reverse, Nat.ofDigits_digits]

/-- The decimal rendering is injective. -/
theorem numToString_inj (a b : Nat)
    (h : (numToString a).data = (numToString b).data) : a = b := by
  have := congrArg decodeDecimal h
  rwa [decodeDecimal_numToString, decodeDecimal_numToString] at this

/-- Splitting at a separator that occurs in neither prefix is unambiguous. -/
theorem append_dash_inj (a : List Char) :
    ∀ b x y : List Char, '-' ∉ a → '-' ∉ b →
      a ++ '-' :: x = b ++ '-' :: y → a = b ∧ x = y := by
  induction a with
  | nil =>
    intro b x y _ hb h
    cases b with
    | nil => simpa using h
    | cons c b' =>
      rw [List.nil_append, List.cons_append, List.cons.injEq] at h
      exact absurd h.1.symm (fun hc => hb (hc ▸ List.mem_cons_self c b'))
  | cons c a' ih =>
    intro b x y ha hb h
    cases b with
    | nil =>
      rw [List.cons_append, List.nil_append, List.cons.injEq] at h
      exact absurd h.1 (fun hc => ha (hc ▸ List.mem_cons_self c a'))
    | cons c' b' =>
      rw [List.cons_append, List.cons_append, List.cons.injEq] at h
      have ha' : '-' ∉ a' := fun hm => ha (List.mem_cons_of_mem c hm)
      have hb' : '-' ∉ b' := fun hm => hb (List.mem_cons_of_mem c' hm)
      obtain ⟨he, ht⟩ := ih b' x y ha' hb' h.2
      exact ⟨by rw [h.1, he], ht⟩

/-- C9: the idempotency-key generator is injective over the
`(timestamp, random token)` pair — two generations that observed different
millisecond ticks or different random tokens never produce equal key
strings, because the digits-dash-token layout parses back uniquely. -/
theorem generateIdempotencyKey_injective (t1 t2 : Nat) (r1 r2 : String)
    (h : t1 ≠ t2 ∨ r1 ≠ r2) :
    generateIdempotencyKey t1 r1 ≠ generateIdempotencyKey t2 r2 := by
  intro heq
  have hdata := congrArg String.data heq
  have e1 : (generateIdempotencyKey t1 r1).data =
      (numToString t1).data ++ '-' :: r1.data := by
    show (numToString t1 ++ "-" ++ r1).data = _
    rw [String.data_append, String.data_append,
      show ("-" : String).data = ['-'] from rfl, List.append_assoc, List.singleton_append]
  have e2 : (generateIdempotencyKey t2 r2).data =
      (numToString t2).data ++ '-' :: r2.data := by
    show (numToString t2 ++ "-" ++ r2).data = _
    rw [String.data_append, String.data_append,
      show ("-" : String).data = ['-'] from rfl, List.append_assoc, List.singleton_append]
  rw [e1, e2] at hdata
  obtain ⟨hpre, hsuf⟩ :=
    append_dash_inj (numToString t1).data (numToString t2).data r1.data r2.data
      (numToString_no_dash t1) (numToString_no_dash t2) hdata
  rcases h with h | h
  · exact h (numToString_inj t1 t2 hpre)
  · refine h ?_
    cases r1
    cases r2
    exact congrArg String.mk (by simpa using hsuf)

/-- C9 witness: keys from tick 1 and tick 2 with the same token differ,
and keys from one tick with different tokens differ. -/
theorem generateIdempotencyKey_injective_witness :
    generateIdempotencyKey 1 "abc" ≠ generateIdempotencyKey 2 "abc" ∧
    generateIdempotencyKey 7 "abc" ≠ generateIdempotencyKey 7 "abd" := by
  constructor
  · exact generateIdempotencyKey_injective 1 2 "abc" "abc" (Or.inl (by decide))
  · exact generateIdempotencyKey_injective 7 7 "abc" "abd" (Or.inr (by decide))

end SpcOtp
